import Mathlib

/-!
Verification of the Hail air-quality monitor's core algorithms.

This file gives a shallow embedding, in Lean 4, of the pollution-source
attribution engine of the monitored repository:

* the multi-source wind fetcher (`src/enhanced_wind_fetcher.py`):
  confidence scoring, the early-exit source loop, and circular
  interpolation between two bracketing observations;
* the threshold evaluator and the factory scorer
  (`src/analyzer.py`): severity classification, wind-alignment /
  distance / emission scoring, the composite confidence and the
  distance-based fallback re-ranking;
* the rule-based narrative generator (`src/analyzer.py`,
  `_rule_based_analysis`), embedded over a dynamic value type in an
  exception monad so that Python's failure modes on malformed input are
  represented;
* the violation recorder's deduplicating write path
  (`src/violation_recorder.py`).

Numeric conventions: quantities that the Python code manipulates with
ordinary float arithmetic are embedded as rationals where the
computation is algebraic, and as real numbers in the factory scorer,
whose distance score uses the exponential function.  Python's `%` on
floats, its banker's rounding and its stable `sort` are embedded
explicitly below.
-/

namespace HailAQ

/-- Python's `x % n` on floats for a positive modulus, over ℚ. -/
def pymod (x n : ℚ) : ℚ := x - n * ⌊x / n⌋

/-- Python's `x % n` on floats for a positive modulus, over ℝ. -/
noncomputable def pymodR (x n : ℝ) : ℝ := x - n * ⌊x / n⌋

/-- Python's `round` to the nearest integer, ties to even (banker's rounding). -/
def evenRound (q : ℚ) : ℤ :=
  if Int.fract q < 1/2 then ⌊q⌋
  else if 1/2 < Int.fract q then ⌊q⌋ + 1
  else if ⌊q⌋ % 2 = 0 then ⌊q⌋ else ⌊q⌋ + 1

/-- Python's `round(x, 1)`: round to one decimal place, ties to even. -/
def round1 (q : ℚ) : ℚ := (evenRound (10 * q) : ℚ) / 10

/-- Render an integer together with `digits` trailing decimal places,
mirroring Python's fixed-point formatting of an already-scaled value. -/
def renderScaled (n : ℤ) (digits : ℕ) : String :=
  let m := n.natAbs
  let p := (10 : ℕ) ^ digits
  let frac := toString (m % p)
  let pad := String.mk (List.replicate (digits - frac.length) '0')
  (if n < 0 then "-" else "") ++
    (if digits = 0 then toString m else toString (m / p) ++ "." ++ pad ++ frac)

/-- Python's `f-string` fixed-point format `:.kf` of a rational. -/
def fmtFixed (digits : ℕ) (q : ℚ) : String :=
  renderScaled (evenRound ((10 : ℚ) ^ digits * q)) digits

/-- The sixteen compass labels used by `_degrees_to_cardinal`. -/
def cardinalDirections : List String :=
  ["N", "NNE", "NE", "ENE", "E", "ESE", "SE", "SSE",
   "S", "SSW", "SW", "WSW", "W", "WNW", "NW", "NNW"]

/-- Embedding of `EnhancedWindFetcher._degrees_to_cardinal`:
`directions[round(degrees / 22.5) % 16]`. -/
def degrees_to_cardinal (degrees : ℚ) : String :=
  (cardinalDirections.getD ((evenRound (degrees / 22.5)) % 16).toNat "N")

/-- A raw wind record as produced by one of the provider fetch functions:
direction, speed, UTC observation time (seconds), and cardinal label. -/
structure RawWind where
  direction_deg : ℚ
  speed_ms : ℚ
  observation_time : ℚ
  direction_cardinal : String
deriving DecidableEq

/-- A named wind source together with the response its fetch function
returns for the query (`none` models both no-data and a swallowed
provider exception). -/
structure Source where
  name : String
  response : Option RawWind
deriving DecidableEq

/-- A wind observation as returned by `fetch_wind_data`: the raw fields
plus source identity, rounded time difference, confidence and reason. -/
structure WindObs where
  direction_deg : ℚ
  speed_ms : ℚ
  observation_time : ℚ
  direction_cardinal : String
  source : String
  time_difference_minutes : ℚ
  confidence : ℚ
  confidence_reason : String
  warning : Option String
deriving DecidableEq

/-- Embedding of `EnhancedWindFetcher._calculate_confidence`: a base
confidence looked up by source identity minus a temporal penalty,
floored at 10. -/
def calculate_confidence (time_diff_minutes : ℚ) (source : String) : ℚ :=
  let source_confidence : ℚ :=
    if source = "saudi_ncmc" then 100
    else if source = "metar" then 95
    else if source = "tomorrow_io" then 95
    else if source = "openweather" then 90
    else if source = "weatherapi" then 85
    else if source = "visualcrossing" then 85
    else if source = "interpolated" then 85
    else 50
  let time_penalty : ℚ :=
    if time_diff_minutes ≤ 5 then 0
    else if time_diff_minutes ≤ 15 then 5
    else if time_diff_minutes ≤ 30 then 10
    else if time_diff_minutes ≤ 60 then 20
    else 40
  max 10 (source_confidence - time_penalty)

/-- Embedding of `EnhancedWindFetcher._get_confidence_reason`. -/
def get_confidence_reason (time_diff_minutes : ℚ) (source : String) : String :=
  let time_desc :=
    if time_diff_minutes ≤ 5 then "Nearly perfect temporal match"
    else if time_diff_minutes ≤ 15 then "Good temporal match"
    else if time_diff_minutes ≤ 30 then "Acceptable temporal match"
    else if time_diff_minutes ≤ 60 then "Moderate temporal difference"
    else "Significant temporal difference"
  let source_desc :=
    if source = "saudi_ncmc" then "Official Saudi weather station"
    else if source = "metar" then "Airport weather observation"
    else if source = "tomorrow_io" then "High-resolution weather API"
    else if source = "openweather" then "Real-time weather service"
    else if source = "weatherapi" then "Historical weather data"
    else if source = "visualcrossing" then "Multi-source weather data"
    else if source = "interpolated" then "Interpolated from multiple sources"
    else "Alternative source"
  time_desc ++ " (" ++ fmtFixed 1 time_diff_minutes ++ " min). Source: " ++ source_desc

/-- Embedding of `EnhancedWindFetcher._create_fallback_wind_data`. -/
def create_fallback_wind_data (target_time : ℚ) : WindObs :=
  { direction_deg := 0
    speed_ms := 0
    observation_time := target_time
    direction_cardinal := "UNKNOWN"
    source := "fallback"
    time_difference_minutes := 999
    confidence := 0
    confidence_reason := "No wind data available - factory attribution unreliable"
    warning := some "Wind data unavailable - results should not be used for attribution" }

/-- Python's `max(l, key=f)` for the observation time: keeps the first
maximal element, replacing the accumulator only on a strict increase. -/
def max_by_time (l : List WindObs) : Option WindObs :=
  match l with
  | [] => none
  | x :: xs =>
      some (xs.foldl (fun acc r =>
        if acc.observation_time < r.observation_time then r else acc) x)

/-- Python's `min(l, key=f)` for the observation time: keeps the first
minimal element. -/
def min_by_time (l : List WindObs) : Option WindObs :=
  match l with
  | [] => none
  | x :: xs =>
      some (xs.foldl (fun acc r =>
        if r.observation_time < acc.observation_time then r else acc) x)

/-- Embedding of `EnhancedWindFetcher._interpolate_wind_data`: when the
accepted results bracket the target time, linearly interpolate speed and
circularly interpolate direction (adding 360 to the smaller angle when
the raw difference exceeds 180), with synthetic confidence 85. -/
def interpolate_wind_data (results : List WindObs) (target_time : ℚ) : Option WindObs :=
  if results.length < 2 then none
  else
    let before := results.filter (fun r => r.observation_time ≤ target_time)
    let after := results.filter (fun r => target_time < r.observation_time)
    match max_by_time before, min_by_time after with
    | some b, some a =>
        let total_diff := a.observation_time - b.observation_time
        let weight := (target_time - b.observation_time) / total_diff
        let dir1 := b.direction_deg
        let dir2 := a.direction_deg
        let dirs :=
          if 180 < |dir2 - dir1| then
            if dir1 < dir2 then (dir1 + 360, dir2) else (dir1, dir2 + 360)
          else (dir1, dir2)
        let interp_dir := pymod (dirs.1 + (dirs.2 - dirs.1) * weight) 360
        let interp_speed := b.speed_ms + (a.speed_ms - b.speed_ms) * weight
        some { direction_deg := interp_dir
               speed_ms := interp_speed
               observation_time := target_time
               direction_cardinal := degrees_to_cardinal interp_dir
               source := "interpolated"
               time_difference_minutes := 0
               confidence := 85
               confidence_reason :=
                 "Interpolated between " ++ b.source ++ " and " ++ a.source
               warning := none }
    | _, _ => none

/-- The accepted observation built from a successful source response in
the `fetch_wind_data` loop: the raw fields updated with source name,
rounded time difference, confidence and reason. -/
def mk_accepted (target_time : ℚ) (name : String) (w : RawWind) : WindObs :=
  let time_diff := |w.observation_time - target_time| / 60
  { direction_deg := w.direction_deg
    speed_ms := w.speed_ms
    observation_time := w.observation_time
    direction_cardinal := w.direction_cardinal
    source := name
    time_difference_minutes := round1 time_diff
    confidence := calculate_confidence time_diff name
    confidence_reason := get_confidence_reason time_diff name
    warning := none }

/-- The source loop of `EnhancedWindFetcher.fetch_wind_data`: queries
sources in priority order, accepts responses within
`max_time_diff_minutes`, and exits early on a time difference of at most
5 minutes.  Returns the names queried, the accepted observations in
query order, and the early-exit observation when one occurred. -/
def fetch_sources_loop (target_time max_time_diff_minutes : ℚ) :
    List Source → List String × List WindObs × Option WindObs
  | [] => ([], [], none)
  | s :: rest =>
    match s.response with
    | none =>
        let r := fetch_sources_loop target_time max_time_diff_minutes rest
        (s.name :: r.1, r.2.1, r.2.2)
    | some w =>
        let time_diff := |w.observation_time - target_time| / 60
        if time_diff ≤ max_time_diff_minutes then
          let obs := mk_accepted target_time s.name w
          if time_diff ≤ 5 then ([s.name], [obs], some obs)
          else
            let r := fetch_sources_loop target_time max_time_diff_minutes rest
            (s.name :: r.1, obs :: r.2.1, r.2.2)
        else
          let r := fetch_sources_loop target_time max_time_diff_minutes rest
          (s.name :: r.1, r.2.1, r.2.2)

/-- The names of the sources actually queried by the fetch loop. -/
def queried_sources (target_time max_time_diff_minutes : ℚ) (sources : List Source) :
    List String :=
  (fetch_sources_loop target_time max_time_diff_minutes sources).1

/-- Embedding of the body of `EnhancedWindFetcher.fetch_wind_data` for a
given priority-ordered source list: early exit on a ≤ 5 minute match,
otherwise sort the accepted results by rounded time difference, try
interpolation when the best exceeds 15 minutes, and fall back to the
zero-confidence placeholder when nothing was accepted. -/
def fetch_wind_from (target_time max_time_diff_minutes : ℚ) (sources : List Source) :
    WindObs :=
  let r := fetch_sources_loop target_time max_time_diff_minutes sources
  match r.2.2 with
  | some w => w
  | none =>
    match r.2.1 with
    | [] => create_fallback_wind_data target_time
    | _ :: _ =>
      let sorted := r.2.1.mergeSort
        (fun a b => decide (a.time_difference_minutes ≤ b.time_difference_minutes))
      match sorted with
      | [] => create_fallback_wind_data target_time
      | best :: _ =>
        if 2 ≤ r.2.1.length ∧ 15 < best.time_difference_minutes then
          match interpolate_wind_data sorted target_time with
          | some interpolated => interpolated
          | none => best
        else best

/-- The priority order of wind sources chosen by `fetch_wind_data` from
the recency of the target time (hours between now and the target). -/
def select_source_names (hours_ago : ℚ) : List String :=
  if hours_ago ≤ 3 then ["openweather", "tomorrow_io", "metar", "weatherapi"]
  else if hours_ago ≤ 24 then ["tomorrow_io", "weatherapi", "openweather", "metar"]
  else ["weatherapi", "visualcrossing", "metar"]

/-- Embedding of `EnhancedWindFetcher.fetch_wind_data`: the environment
maps each source name to the response of its fetch function; unknown
cities fall back immediately. -/
def fetch_wind_data (env : String → Option RawWind) (city : String)
    (now target_time max_time_diff_minutes : ℚ) : WindObs :=
  if city = "Hail" then
    let hours_ago := |now - target_time| / 3600
    fetch_wind_from target_time max_time_diff_minutes
      ((select_source_names hours_ago).map (fun n => ⟨n, env n⟩))
  else create_fallback_wind_data target_time

/-- A per-gas entry of `config.GAS_THRESHOLDS`. -/
structure ThresholdConfig where
  column_threshold : Option ℚ
  critical_threshold : Option ℚ
  extreme_threshold : Option ℚ
  unit : Option String
  display_unit : Option String
  source : Option String
deriving DecidableEq

/-- The `config.GAS_THRESHOLDS` table of `src/config.py`. -/
def GAS_THRESHOLDS (gas : String) : Option ThresholdConfig :=
  if gas = "NO2" then
    some ⟨some 0.000075, some 0.00015, some 0.000225,
      some "mol/m²", some "µmol/m²", some "Sentinel-5P TROPOMI"⟩
  else if gas = "SO2" then
    some ⟨some 0.0025, some 0.005, some 0.0075,
      some "mol/m²", some "µmol/m²", some "Sentinel-5P TROPOMI"⟩
  else if gas = "CO" then
    some ⟨some 0.025, some 0.05, some 0.075,
      some "mol/m²", some "mmol/m²", some "Sentinel-5P TROPOMI"⟩
  else if gas = "HCHO" then
    some ⟨some 0.00025, some 0.0005, some 0.00075,
      some "mol/m²", some "µmol/m²", some "Sentinel-5P TROPOMI"⟩
  else if gas = "CH4" then
    some ⟨some 1920, some 1950, some 2000,
      some "ppb", some "ppb", some "Sentinel-5P TROPOMI"⟩
  else none

/-- The `unit` field of the `config.GAS_PRODUCTS` table; `none` models
the `KeyError` raised on a gas absent from the table. -/
def GAS_PRODUCTS_unit (gas : String) : Option String :=
  if gas = "NO2" then some "mol/m²"
  else if gas = "SO2" then some "mol/m²"
  else if gas = "CO" then some "mol/m²"
  else if gas = "HCHO" then some "mol/m²"
  else if gas = "CH4" then some "ppb"
  else none

/-- The dictionary returned by `check_threshold_violation`; the fields
absent from the early `unknown` returns are `Option`-valued. -/
structure ThresholdResult where
  violated : Bool
  severity : String
  threshold : Option ℚ
  critical_threshold : Option ℚ
  measured_value : Option ℚ
  percentage_over : Option ℚ
  unit : Option String
  unit_mismatch : Option Bool
  who_source : Option String
deriving DecidableEq

/-- Embedding of `PollutionAnalyzer.check_threshold_violation`; the
result is `none` exactly when the Python code would raise a `KeyError`
on `config.GAS_PRODUCTS[gas]`. -/
def check_threshold_violation (gas : String) (value : Option ℚ) : Option ThresholdResult :=
  let threshold_config := (GAS_THRESHOLDS gas).getD ⟨none, none, none, none, none, none⟩
  match GAS_PRODUCTS_unit gas with
  | none => none
  | some gas_unit =>
    let threshold_unit := threshold_config.unit
    let unit_mismatch :=
      match threshold_unit with
      | some u => decide (u ≠ "") && decide (gas_unit ≠ u)
      | none => false
    match threshold_config.column_threshold with
    | none => some ⟨false, "unknown", none, none, none, none, none, none, none⟩
    | some threshold =>
      let critical := threshold_config.critical_threshold.getD (threshold * 2)
      match value with
      | none => some ⟨false, "unknown", none, none, none, none, none, none, none⟩
      | some v =>
        let sv : String × Bool :=
          if critical ≤ v then ("critical", true)
          else if threshold ≤ v then ("moderate", true)
          else ("normal", false)
        some { violated := sv.2
               severity := sv.1
               threshold := some threshold
               critical_threshold := some critical
               measured_value := some v
               percentage_over := some (if sv.2 then (v - threshold) / threshold * 100 else 0)
               unit := some (match threshold_unit with
                             | some u => if u = "" then gas_unit else u
                             | none => gas_unit)
               unit_mismatch := some unit_mismatch
               who_source := some (threshold_config.source.getD "Unknown") }

/-- A persisted violation record (the scalar core of the dictionary
built by `ViolationRecorder.save_violation`). -/
structure VRecord where
  id : String
  timestamp : String
  timestamp_ksa : String
  satellite_timestamp : String
  city : String
  gas : String
  gas_name : String
  max_value : ℚ
  threshold : ℚ
  unit : String
  severity : String
  percentage_over : ℚ
  ai_analysis : String
deriving DecidableEq

/-- The violation data handed to `save_violation` (fields read with
`.get` and a default in the Python code are plain fields here, the
default standing for a missing key). -/
structure ViolationInput where
  city : String
  gas : String
  timestamp_ksa : String
  gas_name : String
  max_value : ℚ
  threshold : ℚ
  unit : String
  severity : String
  percentage_over : ℚ
deriving DecidableEq

/-- Embedding of `ViolationRecorder._get_from_local` (the same filter,
sort and limit is applied on the Firestore path): filter by city and gas
when non-empty, sort newest first by the `timestamp` string (Python's
stable sort), then truncate to `limit`. -/
def get_all_violations (store : List VRecord) (city gas : String) (limit : Option ℕ) :
    List VRecord :=
  let records := if city ≠ "" then store.filter (fun r => r.city = city) else store
  let records := if gas ≠ "" then records.filter (fun r => r.gas = gas) else records
  let records := records.mergeSort (fun a b => decide (b.timestamp ≤ a.timestamp))
  match limit with
  | some n => if n ≠ 0 then records.take n else records
  | none => records

/-- Embedding of `ViolationRecorder.violation_exists`: scan the newest
100 records for the city and gas for one whose satellite timestamp
matches, returning its id. -/
def violation_exists (store : List VRecord) (city gas satellite_timestamp : String) :
    Option String :=
  ((get_all_violations store city gas (some 100)).find?
    (fun v => decide (v.satellite_timestamp = satellite_timestamp))).map (fun v => v.id)

/-- Embedding of `ViolationRecorder.save_violation` over the local
store: refuse when not writable, return the existing id on a duplicate
(city, gas, satellite timestamp) triple, otherwise append a fresh
record.  `now_id`, `now_iso` and `now_ksa` are the formatted wall-clock
strings the Python code derives from `datetime.now`.  Returns the saved
id and the updated store. -/
def save_violation (store : List VRecord) (writable : Bool) (vd : ViolationInput)
    (analysis : String) (now_id now_iso now_ksa : String) :
    Option String × List VRecord :=
  if ¬ writable then (none, store)
  else
    match violation_exists store vd.city vd.gas vd.timestamp_ksa with
    | some existing_id => (some existing_id, store)
    | none =>
      let full_id := now_id ++ "_" ++ vd.city ++ "_" ++ vd.gas
      let record : VRecord :=
        { id := full_id
          timestamp := now_iso
          timestamp_ksa := now_ksa
          satellite_timestamp := vd.timestamp_ksa
          city := vd.city
          gas := vd.gas
          gas_name := vd.gas_name
          max_value := vd.max_value
          threshold := vd.threshold
          unit := vd.unit
          severity := vd.severity
          percentage_over := vd.percentage_over
          ai_analysis := analysis }
      (some full_id, store ++ [record])

/-- The hotspot handed to the factory scorer. -/
structure Hotspot where
  lat : ℝ
  lon : ℝ
  value : ℝ
  gas : String

/-- The wind dictionary consumed by the factory scorer: a possibly
missing direction, the success flag, and a possibly missing confidence. -/
structure WindInput where
  direction_deg : Option ℝ
  success : Bool
  confidence : Option ℝ

/-- A factory from the registry after `find_nearby_factories` attached
its distance to the hotspot. -/
structure Factory where
  name : String
  lat : ℝ
  lon : ℝ
  emissions : List String
  distance_km : ℝ

/-- A factory after scoring: the registry fields plus the bearing,
wind-deviation angle, upwind flag, sub-scores, composite score, final
confidence and the fallback tag. -/
structure ScoredFactory where
  name : String
  lat : ℝ
  lon : ℝ
  emissions : List String
  distance_km : ℝ
  bearing_to_hotspot : ℝ
  angle_from_wind : Option ℝ
  likely_upwind : Bool
  score_wind : ℝ
  score_distance : ℝ
  score_emission : ℝ
  composite_score : ℝ
  confidence : ℝ
  fallback_ranking : Option String

/-- Degrees to radians, `np.radians`. -/
noncomputable def radians (x : ℝ) : ℝ := x * Real.pi / 180

/-- Radians to degrees, `np.degrees`. -/
noncomputable def degreesOf (x : ℝ) : ℝ := x * 180 / Real.pi

/-- The two-argument arctangent `np.arctan2 a b` (`a` the ordinate,
`b` the abscissa). -/
noncomputable def np_arctan2 (a b : ℝ) : ℝ :=
  if 0 < b then Real.arctan (a / b)
  else if b < 0 then
    (if 0 ≤ a then Real.arctan (a / b) + Real.pi else Real.arctan (a / b) - Real.pi)
  else
    (if 0 < a then Real.pi / 2 else if a < 0 then -(Real.pi / 2) else 0)

/-- Embedding of `PollutionAnalyzer._calculate_bearing`: initial
great-circle bearing from point 1 to point 2, in degrees in [0, 360). -/
noncomputable def calculate_bearing (lat1 lon1 lat2 lon2 : ℝ) : ℝ :=
  let φ1 := radians lat1
  let φ2 := radians lat2
  let dlon := radians lon2 - radians lon1
  let x := Real.sin dlon * Real.cos φ2
  let y := Real.cos φ1 * Real.sin φ2 - Real.sin φ1 * Real.cos φ2 * Real.cos dlon
  pymodR (degreesOf (np_arctan2 x y) + 360) 360

/-- The piecewise wind-alignment score of
`calculate_wind_vector_to_factories` (lines 214-223 of
`src/analyzer.py`), as a function of the wind-deviation angle. -/
noncomputable def wind_score (angle_diff : ℝ) : ℝ :=
  if angle_diff ≤ 15 then 100 - angle_diff * 2
  else if angle_diff ≤ 30 then 70 - (angle_diff - 15) * 2
  else if angle_diff ≤ 60 then 40 - (angle_diff - 30) * 1
  else if angle_diff ≤ 90 then max 0 (10 - (angle_diff - 60) * 0.33)
  else 0

/-- The composite weighted score of `calculate_wind_vector_to_factories`
(lines 254-260 of `src/analyzer.py`): weights wind 0.40, distance 0.30,
emission 0.20, with the whole composite multiplied by 0.1 when the
emission score is zero. -/
noncomputable def composite_score (wind distance emission : ℝ) : ℝ :=
  let c := wind * 0.40 + distance * 0.30 + emission * 0.20
  if emission = 0 then c * 0.1 else c

/-- The per-factory body of the loop in
`PollutionAnalyzer.calculate_wind_vector_to_factories`: bearing, wind
alignment, exponential distance decay, emission match, composite score,
wind-quality multiplier and clamped confidence. -/
noncomputable def score_factory (hotspot : Hotspot) (wind : WindInput) (f : Factory) :
    ScoredFactory :=
  let bearing := calculate_bearing f.lat f.lon hotspot.lat hotspot.lon
  let windPart : ℝ × Option ℝ × Bool :=
    match wind.success, wind.direction_deg with
    | true, some wind_direction =>
        let reverse_bearing := pymodR (bearing + 180) 360
        let angle_diff := |pymodR (reverse_bearing - wind_direction + 180) 360 - 180|
        (wind_score angle_diff, some angle_diff, decide (angle_diff < 30))
    | _, _ => (0, none, false)
  let distance_score := 100 * Real.exp (-f.distance_km / 5)
  let emission_score : ℝ := if hotspot.gas ∈ f.emissions then 100 else 0
  let composite := composite_score windPart.1 distance_score emission_score
  let wind_confidence := wind.confidence.getD (if wind.success then 100 else 0)
  let confidence_multiplier : ℝ :=
    if 70 ≤ wind_confidence then 1
    else if 40 ≤ wind_confidence then 0.8
    else 0.5
  let final_confidence := composite * confidence_multiplier
  { name := f.name
    lat := f.lat
    lon := f.lon
    emissions := f.emissions
    distance_km := f.distance_km
    bearing_to_hotspot := bearing
    angle_from_wind := windPart.2.1
    likely_upwind := windPart.2.2
    score_wind := windPart.1
    score_distance := distance_score
    score_emission := emission_score
    composite_score := composite
    confidence := max 0 (min 100 final_confidence)
    fallback_ranking := none }

/-- The fallback re-ranking applied to every factory when none is
upwind: emitters keep 0.9 of their distance score, non-emitters 0.1,
each tagged with the fallback label. -/
noncomputable def apply_fallback (f : ScoredFactory) : ScoredFactory :=
  if 0 < f.score_emission then
    { f with confidence := f.score_distance * 0.9,
             fallback_ranking := some "emission_match" }
  else
    { f with confidence := f.score_distance * 0.1,
             fallback_ranking := some "no_emission_match" }

/-- Embedding of `PollutionAnalyzer.calculate_wind_vector_to_factories`:
score every factory, re-rank through the fallback when no factory is
upwind, and return the list sorted descending by confidence (Python's
stable `sorted` with `reverse=True`). -/
noncomputable def calculate_wind_vector_to_factories (hotspot : Hotspot)
    (factories : List Factory) (wind : WindInput) : List ScoredFactory :=
  let scored := factories.map (score_factory hotspot wind)
  let has_upwind_factory := scored.any (fun f => f.likely_upwind)
  let ranked := if has_upwind_factory then scored else scored.map apply_fallback
  ranked.mergeSort (fun a b => decide (b.confidence ≤ a.confidence))

/-- A stored violation record for exercising the deduplicating write
path: 101 records for the same city and gas, all with equal `timestamp`
sort keys, of which only the record at index 100 carries the satellite
timestamp `SAT-DUP`. -/
def mkStoreRecord (i : ℕ) : VRecord :=
  { id := "ID" ++ toString i
    timestamp := "T"
    timestamp_ksa := "K"
    satellite_timestamp := if i = 100 then "SAT-DUP" else "SAT-OTHER"
    city := "Hail"
    gas := "NO2"
    gas_name := "Nitrogen Dioxide"
    max_value := 1
    threshold := 1
    unit := "mol/m²"
    severity := "moderate"
    percentage_over := 0
    ai_analysis := "a" }

/-- A store of 101 records for the (Hail, NO2) pair. -/
def store101 : List VRecord := (List.range 101).map mkStoreRecord

/-- A violation whose (city, gas, satellite timestamp) triple matches
the record at index 100 of `store101`. -/
def vd_dup : ViolationInput :=
  { city := "Hail"
    gas := "NO2"
    timestamp_ksa := "SAT-DUP"
    gas_name := "Nitrogen Dioxide"
    max_value := 1
    threshold := 1
    unit := "mol/m²"
    severity := "moderate"
    percentage_over := 0 }

/-- A dynamic Python value, for embedding `_rule_based_analysis` over
arbitrary (possibly malformed) `violation_data` dictionaries. -/
inductive Val where
  | none
  | bool (b : Bool)
  | num (q : ℚ)
  | str (s : String)
  | list (l : List Val)
  | dict (d : List (String × Val))

/-- The Python exceptions the embedded operations can raise. -/
inductive PyErr where
  | typeError
  | attributeError
deriving DecidableEq

/-- Computations that can raise a Python exception. -/
abbrev PyM := Except PyErr

mutual

/-- Python `==` on dynamic values (structural). -/
def veq : Val → Val → Bool
  | .none, .none => true
  | .bool a, .bool b => a = b
  | .num a, .num b => a = b
  | .str a, .str b => a = b
  | .list a, .list b => veqList a b
  | .dict a, .dict b => veqDict a b
  | _, _ => false

/-- Elementwise `veq` on lists. -/
def veqList : List Val → List Val → Bool
  | [], [] => true
  | a :: as, b :: bs => veq a b && veqList as bs
  | _, _ => false

/-- Entrywise `veq` on dictionaries. -/
def veqDict : List (String × Val) → List (String × Val) → Bool
  | [], [] => true
  | (ka, va) :: as, (kb, vb) :: bs => ka = kb && veq va vb && veqDict as bs
  | _, _ => false

end

/-- Python `dict.get(k, default)` on a known dictionary. -/
def dictGet (d : List (String × Val)) (k : String) (dflt : Val) : Val :=
  match d.find? (fun p => decide (p.1 = k)) with
  | some p => p.2
  | Option.none => dflt

/-- Python `v.get(k, default)` on an arbitrary value: raises
`AttributeError` when `v` is not a dictionary. -/
def vget (v : Val) (k : String) (dflt : Val) : PyM Val :=
  match v with
  | .dict d => pure (dictGet d k dflt)
  | _ => throw .attributeError

/-- Python truthiness of a dynamic value. -/
def truthy : Val → Bool
  | .none => false
  | .bool b => b
  | .num q => decide (q ≠ 0)
  | .str s => decide (s ≠ "")
  | .list l => !l.isEmpty
  | .dict d => !d.isEmpty

/-- Python iteration over a dynamic value (`for x in v`): lists yield
elements, strings their characters, dictionaries their keys; anything
else raises `TypeError`. -/
def viter : Val → PyM (List Val)
  | .list l => pure l
  | .str s => pure (s.data.map (fun c => Val.str (String.mk [c])))
  | .dict d => pure (d.map (fun p => Val.str p.1))
  | _ => throw .typeError

/-- Python slicing `v[:n]` followed by iteration; dictionaries and
scalars are not sliceable. -/
def vsliceList (v : Val) (n : ℕ) : PyM (List Val) :=
  match v with
  | .list l => pure (l.take n)
  | .str s => pure ((s.data.take n).map (fun c => Val.str (String.mk [c])))
  | _ => throw .typeError

/-- Python `len(v)` for sized values. -/
def vlen (v : Val) : PyM ℕ :=
  match v with
  | .list l => pure l.length
  | .str s => pure s.length
  | .dict d => pure d.length
  | _ => throw .typeError

/-- Coerce a dynamic value to a number the way Python's arithmetic,
comparisons and fixed-point formatting do (booleans count as 0/1);
other types raise. -/
def toNum : Val → PyM ℚ
  | .num q => pure q
  | .bool b => pure (if b then 1 else 0)
  | _ => throw .typeError

/-- Python f-string fixed-point formatting of a dynamic value. -/
def vfmtFixed (digits : ℕ) (v : Val) : PyM String := do
  let q ← toNum v
  pure (fmtFixed digits q)

/-- Python `v < q` against a numeric literal. -/
def vltNum (v : Val) (q : ℚ) : PyM Bool := do
  let x ← toNum v
  pure (decide (x < q))

/-- Python `a < b` on two dynamic values. -/
def vltVal (a b : Val) : PyM Bool := do
  let x ← toNum a
  let y ← toNum b
  pure (decide (x < y))

/-- Python `abs(a - b) < bound` on two dynamic values. -/
def vAbsDiffLt (a b : Val) (bound : ℚ) : PyM Bool := do
  let x ← toNum a
  let y ← toNum b
  pure (decide (|x - y| < bound))

/-- Rendering of a rational for plain f-string interpolation. -/
def ratStr (q : ℚ) : String :=
  if q.den = 1 then toString q.num
  else toString q.num ++ "/" ++ toString q.den

/-- Python `str(v)` (container rendering abbreviated). -/
def vstr : Val → String
  | .none => "None"
  | .bool b => if b then "True" else "False"
  | .num q => ratStr q
  | .str s => s
  | .list _ => "[...]"
  | .dict _ => "\x7b...\x7d"

/-- Python `sep.join(items)`: every item must be a string. -/
def vjoin (sep : String) (items : List Val) : PyM String := do
  let strs ← items.mapM (fun v =>
    match v with
    | Val.str s => pure s
    | _ => throw PyErr.typeError)
  pure (String.intercalate sep strs)

/-- A Python list comprehension with a possibly raising predicate,
evaluated left to right. -/
def filterPyM (p : Val → PyM Bool) : List Val → PyM (List Val)
  | [] => pure []
  | x :: xs => do
      let b ← p x
      let rest ← filterPyM p xs
      pure (if b then x :: rest else rest)

/-- The local `has_emission` helper of `_rule_based_analysis`: `False`
on a `None` or non-list emissions field, membership otherwise. -/
def has_emission (factory gas : Val) : PyM Bool := do
  let emissions ← vget factory "emissions" (Val.list [])
  match emissions with
  | .none => pure false
  | .list l => pure (l.any (fun e => veq e gas))
  | _ => pure false

/-- The `'=' * 50` separator line of the narrative reports. -/
def sepLine : String :=
  "==========================================" ++ "========"

/-- The locals of `_rule_based_analysis` shared by the report branches. -/
structure RuleCtx where
  violation_data : List (String × Val)
  factories_v : Val
  gas : Val
  gas_name : Val
  wind_v : Val
  wind_dir : Val
  wind_deg : Val
  wind_confidence : Val
  wind_source : Val
  candidates : List Val
  all_emitters : List Val
  non_emitters : List Val

/-- The wind-conditions block (direction, speed, quality, measurement
times and offset) shared verbatim by the English report branches. -/
def wind_conditions_en (ctx : RuleCtx) : PyM String := do
  let deg ← vfmtFixed 0 ctx.wind_deg
  let speed_v ← vget ctx.wind_v "speed_ms" (Val.num 0)
  let speed ← vfmtFixed 1 speed_v
  let wc ← vfmtFixed 0 ctx.wind_confidence
  let wind_time ← vget ctx.wind_v "timestamp_ksa" (Val.str "N/A")
  let sat_time := dictGet ctx.violation_data "timestamp_ksa" (Val.str "N/A")
  let time_offset ← vget ctx.wind_v "time_offset_hours" (Val.str "N/A")
  let offset_line :=
    match time_offset with
    | Val.num q => "  - Time offset: " ++ fmtFixed 1 q ++ " hours\n\n"
    | Val.bool b => "  - Time offset: " ++ fmtFixed 1 (if b then 1 else 0) ++ " hours\n\n"
    | v => "  - Time offset: " ++ vstr v ++ "\n\n"
  pure ("  - Wind Direction: " ++ deg ++ "° (" ++ vstr ctx.wind_dir ++ ")\n" ++
    "  - Wind Speed: " ++ speed ++ " m/s\n" ++
    "  - Wind Data Quality: " ++ wc ++ "% (" ++ vstr ctx.wind_source ++ ")\n" ++
    "  - Wind measurement time: " ++ vstr wind_time ++ "\n" ++
    "  - Satellite observation time: " ++ vstr sat_time ++ "\n" ++
    offset_line)

/-- The wind-conditions block of the Arabic report branches. -/
def wind_conditions_ar (ctx : RuleCtx) : PyM String := do
  let deg ← vfmtFixed 0 ctx.wind_deg
  let speed_v ← vget ctx.wind_v "speed_ms" (Val.num 0)
  let speed ← vfmtFixed 1 speed_v
  let wc ← vfmtFixed 0 ctx.wind_confidence
  let wind_time ← vget ctx.wind_v "timestamp_ksa" (Val.str "N/A")
  let sat_time := dictGet ctx.violation_data "timestamp_ksa" (Val.str "N/A")
  let time_offset ← vget ctx.wind_v "time_offset_hours" (Val.str "N/A")
  let offset_line :=
    match time_offset with
    | Val.num q => "  - الفارق الزمني: " ++ fmtFixed 1 q ++ " ساعات\n\n"
    | Val.bool b => "  - الفارق الزمني: " ++ fmtFixed 1 (if b then 1 else 0) ++ " ساعات\n\n"
    | v => "  - الفارق الزمني: " ++ vstr v ++ "\n\n"
  pure ("  - اتجاه الرياح: " ++ deg ++ "° (" ++ vstr ctx.wind_dir ++ ")\n" ++
    "  - سرعة الرياح: " ++ speed ++ " م/ث\n" ++
    "  - جودة بيانات الرياح: " ++ wc ++ "% (" ++ vstr ctx.wind_source ++ ")\n" ++
    "  - وقت قياس الرياح: " ++ vstr wind_time ++ "\n" ++
    "  - وقت رصد القمر الصناعي: " ++ vstr sat_time ++ "\n" ++
    offset_line)

/-- One line of the nearby-emitters reference list, with the per-factory
`try`/`except` of the source loop. -/
def reference_line (is_ar : Bool) (i : ℕ) (f : Val) : String :=
  match f with
  | Val.dict _ =>
    let attempt : PyM String := do
      let name ← vget f "name" (Val.str "Unknown")
      let dist ← vget f "distance_km" (Val.num 0)
      let conf ← vget f "confidence" (Val.num 0)
      let d ← vfmtFixed 1 dist
      let c ← vfmtFixed 0 conf
      if is_ar then
        pure ("  " ++ toString i ++ ". " ++ vstr name ++ " - " ++ d ++ " كم، ثقة " ++ c ++ "%\n")
      else
        pure ("  " ++ toString i ++ ". " ++ vstr name ++ " - " ++ d ++ " km, " ++ c ++ "% confidence\n")
    match attempt with
    | .ok s => s
    | .error _ =>
      if is_ar then "  " ++ toString i ++ ". خطأ في قراءة بيانات المصنع\n"
      else "  " ++ toString i ++ ". Error reading factory data\n"
  | _ =>
    if is_ar then "  " ++ toString i ++ ". مصنع غير معروف\n"
    else "  " ++ toString i ++ ". Unknown factory\n"

/-- The structured report emitted when the top candidate is neither
upwind nor at 40% confidence. -/
def no_clear_source_report (is_ar : Bool) (ctx : RuleCtx) (top top_confidence : Val) :
    PyM String := do
  let wc ← vfmtFixed 0 ctx.wind_confidence
  let wind_block ← (if is_ar then wind_conditions_ar ctx else wind_conditions_en ctx)
  let top_name ← vget top "name" (Val.str "Unknown")
  let top_dist_v ← vget top "distance_km" (Val.num 0)
  let top_dist ← vfmtFixed 1 top_dist_v
  let top_conf ← vfmtFixed 0 top_confidence
  let ref_lines :=
    String.join ((ctx.candidates.take 5).enum.map
      (fun p => reference_line is_ar (p.1 + 1) p.2))
  if is_ar then
    pure ("⚠️ لم يتم تحديد مصدر واضح\n" ++ sepLine ++ "\n\n" ++
      "السبب: لا توجد مصانع متوافقة مع اتجاه الرياح.\n\n" ++
      "ظروف الرياح:\n" ++ wind_block ++
      "تحليل المصانع القريبة:\n" ++
      "  - " ++ toString ctx.candidates.length ++ " مصانع تنتج " ++ vstr ctx.gas_name ++ "\n" ++
      "  - أقرب مُنتِج: " ++ vstr top_name ++ " (" ++ top_dist ++ " كم)\n" ++
      "  - ومع ذلك، هذا المصنع ليس في اتجاه الرياح (الثقة: " ++ top_conf ++ "%)\n" ++
      "  - الرياح لا تهب من أي مصنع معروف ينتج " ++ vstr ctx.gas_name ++ " نحو البؤرة\n\n" ++
      "التفسيرات المحتملة:\n" ++
      "  - مصدر خارج المنطقة المراقبة (مثلاً: بعد 20 كم)\n" ++
      "  - مصادر متنقلة (سفن، مركبات، نقل صناعي)\n" ++
      "  - عدم يقين اتجاه الرياح (ثقة الرياح: " ++ wc ++ "%)\n" ++
      "  - نقل التلوث بعيد المدى من مصادر بعيدة\n" ++
      "  - قاعدة بيانات انبعاثات المصانع غير مكتملة\n\n" ++
      "التوصية: توسيع نطاق المراقبة أو التحقيق في المصادر المتنقلة/البعيدة المحتملة.\n\n" ++
      "مرجع - المُنتِجون القريبون (ليسوا في اتجاه الرياح):\n" ++ ref_lines)
  else
    pure ("⚠️ NO CLEAR SOURCE IDENTIFIED\n" ++ sepLine ++ "\n\n" ++
      "REASON: No factories are aligned with the wind direction.\n\n" ++
      "WIND CONDITIONS:\n" ++ wind_block ++
      "NEARBY FACTORIES ANALYSIS:\n" ++
      "  - " ++ toString ctx.candidates.length ++ " factories produce " ++ vstr ctx.gas_name ++ "\n" ++
      "  - Closest emitter: " ++ vstr top_name ++ " (" ++ top_dist ++ " km)\n" ++
      "  - However, this factory is NOT upwind (confidence: " ++ top_conf ++ "%)\n" ++
      "  - Wind does not blow from any known " ++ vstr ctx.gas_name ++
        "-producing factory toward the hotspot\n\n" ++
      "POSSIBLE EXPLANATIONS:\n" ++
      "  - Source outside monitored area (e.g., beyond 20km radius)\n" ++
      "  - Mobile sources (ships, vehicles, industrial transport)\n" ++
      "  - Wind direction uncertainty (wind confidence: " ++ wc ++ "%)\n" ++
      "  - Long-range pollution transport from distant sources\n" ++
      "  - Incomplete factory emissions database\n\n" ++
      "RECOMMENDATION: Expand monitoring radius or investigate potential mobile/distant sources.\n\n" ++
      "REFERENCE - NEARBY EMITTERS (not upwind):\n" ++ ref_lines)

/-- One comparison entry in the similar-distance section of the
most-likely-source report. -/
def comparison_entry (is_ar : Bool) (top f : Val) : PyM String := do
  let name ← vget f "name" (Val.str "Unknown")
  let dist_v ← vget f "distance_km" (Val.num 0)
  let dist ← vfmtFixed 1 dist_v
  let f_conf_v ← vget f "confidence" (Val.num 0)
  let top_conf_v ← vget top "confidence" (Val.num 0)
  let f_conf ← vfmtFixed 0 f_conf_v
  let top_conf ← vfmtFixed 0 top_conf_v
  let f_b_v ← vget f "bearing_to_hotspot" (Val.num 0)
  let top_b_v ← vget top "bearing_to_hotspot" (Val.num 0)
  let f_b ← vfmtFixed 0 f_b_v
  let top_b ← vfmtFixed 0 top_b_v
  let flt ← vltVal f_conf_v top_conf_v
  if is_ar then
    pure ("✗ " ++ vstr name ++ " (" ++ dist ++ " كم):\n" ++
      "  - توافق الرياح: " ++ f_conf ++ "% مقابل " ++ top_conf ++ "%\n" ++
      "  - الاتجاه: " ++ f_b ++ "° مقابل " ++ top_b ++ "°\n" ++
      (if flt then "  - تم اختيار الأساسي بسبب توافق أفضل مع الرياح\n"
       else "  - مُدرج كمصدر بديل\n"))
  else
    pure ("✗ " ++ vstr name ++ " (" ++ dist ++ " km):\n" ++
      "  - Wind alignment: " ++ f_conf ++ "% vs " ++ top_conf ++ "%\n" ++
      "  - Bearing: " ++ f_b ++ "° vs " ++ top_b ++ "°\n" ++
      (if flt then "  - Selected primary due to better wind alignment\n"
       else "  - Listed as alternative source\n"))

/-- The structured most-likely-source report. -/
def likely_source_report (is_ar : Bool) (ctx : RuleCtx) (top : Val) : PyM String := do
  let top_name ← vget top "name" (Val.str "Unknown")
  let top_type ← vget top "type" (Val.str "Unknown")
  let wind_block ← (if is_ar then wind_conditions_ar ctx else wind_conditions_en ctx)
  let top_upwind ← vget top "likely_upwind" (Val.bool false)
  let top_bearing_v ← vget top "bearing_to_hotspot" (Val.num 0)
  let top_bearing ← vfmtFixed 0 top_bearing_v
  let top_conf_v ← vget top "confidence" (Val.num 0)
  let top_conf ← vfmtFixed 0 top_conf_v
  let alignment :=
    if truthy top_upwind then
      if is_ar then
        "✓ توافق الرياح: المصنع في اتجاه الرياح من البؤرة\n" ++
        "  - الرياح تهب من المصنع إلى بؤرة التلوث\n" ++
        "  - الاتجاه من المصنع: " ++ top_bearing ++ "°\n" ++
        "  - ثقة التوافق: " ++ top_conf ++ "%\n"
      else
        "✓ Wind Alignment: Factory IS upwind of hotspot\n" ++
        "  - Wind blows FROM factory TO pollution hotspot\n" ++
        "  - Bearing from factory: " ++ top_bearing ++ "°\n" ++
        "  - Alignment confidence: " ++ top_conf ++ "%\n"
    else
      if is_ar then
        "⚠️ توافق الرياح: المصنع ليس في اتجاه الرياح المثالي\n" ++
        "  - الاتجاه من المصنع: " ++ top_bearing ++ "°\n" ++
        "  - عدم تطابق اتجاه الرياح (تم اختياره لتطابق الانبعاثات + القرب)\n" ++
        "  - ثقة التوافق: " ++ top_conf ++ "%\n"
      else
        "⚠️ Wind Alignment: Factory NOT ideally upwind\n" ++
        "  - Bearing from factory: " ++ top_bearing ++ "°\n" ++
        "  - Wind bearing mismatch (selected for emission match + proximity)\n" ++
        "  - Alignment confidence: " ++ top_conf ++ "%\n"
  let top_dist_v ← vget top "distance_km" (Val.num 0)
  let top_dist ← vfmtFixed 1 top_dist_v
  let excluded ←
    if ctx.non_emitters.isEmpty then pure ""
    else do
      let lines ← (ctx.non_emitters.take 2).mapM (fun f => do
        let n ← vget f "name" (Val.str "Unknown")
        if is_ar then
          pure ("✗ " ++ vstr n ++ ": لا ينتج " ++ vstr ctx.gas_name ++ "\n")
        else
          pure ("✗ " ++ vstr n ++ ": Does not produce " ++ vstr ctx.gas_name ++ "\n"))
      pure ((if is_ar then "المصانع المستبعدة:\n" else "EXCLUDED FACTORIES:\n") ++
        String.join lines)
  let similar ← filterPyM (fun f => do
    let fn ← vget f "name" Val.none
    let tn ← vget top "name" Val.none
    if veq fn tn then pure false
    else do
      let fd ← vget f "distance_km" (Val.num 0)
      let td ← vget top "distance_km" (Val.num 0)
      vAbsDiffLt fd td 2) ctx.all_emitters
  let comparison ←
    if similar.isEmpty then pure ""
    else do
      let entries ← (similar.take 2).mapM (comparison_entry is_ar top)
      pure ((if is_ar then "\nمقارنة مع مصانع على مسافة مماثلة:\n"
             else "\nCOMPARISON WITH SIMILAR-DISTANCE FACTORIES:\n") ++
        String.join entries)
  let other_downwind ← filterPyM (fun f => do
    let u ← vget f "likely_upwind" (Val.bool false)
    if truthy u then pure false
    else do
      let fn ← vget f "name" Val.none
      let tn ← vget top "name" Val.none
      if veq fn tn then pure false
      else pure (!(similar.any (fun g => veq f g)))) ctx.all_emitters
  let other_line :=
    if other_downwind.isEmpty then ""
    else if is_ar then
      "✗ " ++ toString other_downwind.length ++ " مُنتِج(ون) آخر(ون): أبعد أو توافق ضعيف مع الرياح\n"
    else
      "✗ " ++ toString other_downwind.length ++ " other emitter(s): Farther or poor wind alignment\n"
  let low_wind ← vltNum ctx.wind_confidence 50
  let close_top ←
    if truthy top_upwind then do
      let d ← vget top "distance_km" (Val.num 0)
      vltNum d 5
    else pure false
  let overall :=
    if low_wind then
      if is_ar then "⚠️ الثقة الإجمالية: متوسطة-منخفضة (عدم يقين بيانات الرياح)\n\n"
      else "⚠️ OVERALL CONFIDENCE: MEDIUM-LOW (wind data uncertainty)\n\n"
    else if close_top then
      if is_ar then "✓ الثقة الإجمالية: عالية (في اتجاه الرياح + قريب + تطابق الانبعاثات)\n\n"
      else "✓ OVERALL CONFIDENCE: HIGH (upwind + close + emission match)\n\n"
    else
      if is_ar then "✓ الثقة الإجمالية: متوسطة (تم تأكيد تطابق الانبعاثات)\n\n"
      else "✓ OVERALL CONFIDENCE: MEDIUM (emission match confirmed)\n\n"
  let alternatives ←
    if 1 < ctx.candidates.length then do
      let names ← ((ctx.candidates.drop 1).take 2).mapM (fun f => vget f "name" (Val.str "Unknown"))
      let joined ← vjoin ", " names
      if is_ar then pure ("\n\nالمصادر البديلة: " ++ joined)
      else pure ("\n\nALTERNATIVE SOURCES: " ++ joined)
    else pure ""
  if is_ar then
    pure ("المصدر الأكثر احتمالاً: " ++ vstr top_name ++ " (" ++ vstr top_type ++ ")\n" ++
      sepLine ++ "\n\n" ++
      "التبرير:\n" ++
      "✓ تطابق الانبعاثات: المصنع ينتج " ++ vstr ctx.gas_name ++
        " (الغاز المكتشف: " ++ vstr ctx.gas_name ++ ")\n" ++
      "\nظروف الرياح:\n" ++ wind_block ++
      alignment ++
      "✓ المسافة: " ++ top_dist ++ " كم من البؤرة\n\n" ++
      excluded ++ comparison ++ other_line ++ "\n" ++ overall ++
      "التوصية: فحص فوري لضوابط انبعاثات " ++ vstr top_name ++
        " والتغييرات التشغيلية الأخيرة." ++
      alternatives)
  else
    pure ("MOST LIKELY SOURCE: " ++ vstr top_name ++ " (" ++ vstr top_type ++ ")\n" ++
      sepLine ++ "\n\n" ++
      "JUSTIFICATION:\n" ++
      "✓ Emission Match: Factory produces " ++ vstr ctx.gas_name ++
        " (detected gas: " ++ vstr ctx.gas_name ++ ")\n" ++
      "\nWIND CONDITIONS:\n" ++ wind_block ++
      alignment ++
      "✓ Distance: " ++ top_dist ++ " km from hotspot\n\n" ++
      excluded ++ comparison ++ other_line ++ "\n" ++ overall ++
      "RECOMMENDATION: Immediate inspection of " ++ vstr top_name ++
        " emission controls and recent operational changes." ++
      alternatives)

/-- The report emitted when no nearby factory produces the detected gas. -/
def no_emitters_report (is_ar : Bool) (ctx : RuleCtx) : PyM String := do
  let n ← vlen ctx.factories_v
  let first3 ← vsliceList ctx.factories_v 3
  let names ← first3.mapM (fun f => vget f "name" (Val.str "Unknown"))
  let names_joined ← vjoin ", " names
  let emission_strs ← first3.mapM (fun f => do
    let e ← vget f "emissions" (Val.list [])
    let items ← viter e
    vjoin ", " items)
  let wc ← vfmtFixed 0 ctx.wind_confidence
  if is_ar then
    pure ("لم يتم تحديد مصدر واضح\n" ++ sepLine ++ "\n\n" ++
      "السبب: لا يُعرف أن أياً من المصانع القريبة (" ++ toString n ++ " مصنع) ينتج " ++
        vstr ctx.gas_name ++ ".\n\n" ++
      "الغاز المكتشف: " ++ vstr ctx.gas_name ++ "\n" ++
      "المصانع القريبة: " ++ names_joined ++ "\n" ++
      "انبعاثاتها: " ++ String.intercalate ", " emission_strs ++ "\n\n" ++
      "التفسيرات المحتملة:\n" ++
      "- مصدر خارج المنطقة المراقبة\n" ++
      "- مصادر متنقلة (مركبات، سفن)\n" ++
      "- قاعدة بيانات انبعاثات المصانع غير مكتملة\n" ++
      "- نقل بعيد المدى (الرياح: " ++ vstr ctx.wind_dir ++ "، الثقة: " ++ wc ++ "%)")
  else
    pure ("NO CLEAR SOURCE IDENTIFIED\n" ++ sepLine ++ "\n\n" ++
      "REASON: None of the " ++ toString n ++ " nearby factories are known to produce " ++
        vstr ctx.gas_name ++ ".\n\n" ++
      "DETECTED GAS: " ++ vstr ctx.gas_name ++ "\n" ++
      "NEARBY FACTORIES: " ++ names_joined ++ "\n" ++
      "THEIR EMISSIONS: " ++ String.intercalate ", " emission_strs ++ "\n\n" ++
      "POSSIBLE EXPLANATIONS:\n" ++
      "- Source outside monitored area\n" ++
      "- Mobile sources (vehicles, ships)\n" ++
      "- Incomplete factory emission database\n" ++
      "- Long-range transport (wind: " ++ vstr ctx.wind_dir ++ ", confidence: " ++ wc ++ "%)")

/-- The body of `PollutionAnalyzer._rule_based_analysis` inside its
`try` block: everything up to, but excluding, the catch-all handler. -/
def rule_based_body (violation_data : List (String × Val)) (is_ar : Bool) : PyM String := do
  let factories_v := dictGet violation_data "nearby_factories" (Val.list [])
  if ¬ truthy factories_v then
    return (if is_ar then
      "لم يتم العثور على مصانع بالقرب من بؤرة التلوث. قد يكون المصدر خارج المنطقة المراقبة أو مصدر متنقل."
    else
      "No factories found near pollution hotspot. Source may be outside monitored area or mobile source.")
  let gas := dictGet violation_data "gas" (Val.str "")
  if ¬ truthy gas then
    return (if is_ar then
      "خطأ: لم يتم تحديد نوع الغاز في بيانات المخالفة."
    else
      "Error: Gas type not specified in violation data.")
  let gas_name := dictGet violation_data "gas_name" gas
  let wind_v := dictGet violation_data "wind" (Val.dict [])
  let wind_dir ← vget wind_v "direction_cardinal" (Val.str "Unknown")
  let wind_deg ← vget wind_v "direction_deg" (Val.num 0)
  let fac_list ← viter factories_v
  let upwind_emitters ← filterPyM (fun f => do
    let e ← has_emission f gas
    if e then do
      let u ← vget f "likely_upwind" (Val.bool false)
      pure (truthy u)
    else pure false) fac_list
  let all_emitters ← filterPyM (fun f => has_emission f gas) fac_list
  let first5 ← vsliceList factories_v 5
  let non_emitters ← filterPyM (fun f => do
    let e ← has_emission f gas
    pure (!e)) first5
  let candidates := if upwind_emitters.isEmpty then all_emitters else upwind_emitters
  let wind_confidence ← vget wind_v "confidence" (Val.num 0)
  let wind_source ← vget wind_v "source_label" (Val.str "unknown")
  let ctx : RuleCtx :=
    { violation_data := violation_data
      factories_v := factories_v
      gas := gas
      gas_name := gas_name
      wind_v := wind_v
      wind_dir := wind_dir
      wind_deg := wind_deg
      wind_confidence := wind_confidence
      wind_source := wind_source
      candidates := candidates
      all_emitters := all_emitters
      non_emitters := non_emitters }
  match candidates with
  | [] => no_emitters_report is_ar ctx
  | top :: _ => do
    let top_confidence ← vget top "confidence" (Val.num 0)
    let top_upwind ← vget top "likely_upwind" (Val.bool false)
    let inconclusive ←
      if truthy top_upwind then pure false
      else vltNum top_confidence 40
    if inconclusive then no_clear_source_report is_ar ctx top top_confidence
    else likely_source_report is_ar ctx top

/-- The one-line message produced by the catch-all `except` handler of
`_rule_based_analysis`, per language. -/
def analysis_error_message (is_ar : Bool) : String :=
  if is_ar then "خطأ في التحليل. يرجى المحاولة مرة أخرى."
  else "Error in analysis. Please try again."

/-- Embedding of `PollutionAnalyzer._rule_based_analysis`: run the body
and degrade any raised exception to the one-line analysis-error message
in the active language. -/
def rule_based_analysis (violation_data : List (String × Val)) (is_ar : Bool) : String :=
  match rule_based_body violation_data is_ar with
  | .ok analysis => analysis
  | .error _ => analysis_error_message is_ar

/-- C3: for every wind source identity and time difference, the
confidence of an accepted observation is `max(10, base − penalty)`,
where the base is one of `{100, 95, 92, 90, 85, 50}` determined by the
source identity and the penalty is `0/5/10/20/40` for time differences
in the buckets `≤5/≤15/≤30/≤60/>60` minutes. -/
theorem confidence_formula_spec (source : String) (time_diff_minutes : ℚ) :
    ∃ base ∈ ([100, 95, 92, 90, 85, 50] : List ℚ),
      calculate_confidence time_diff_minutes source =
        max 10 (base -
          (if time_diff_minutes ≤ 5 then 0
           else if time_diff_minutes ≤ 15 then 5
           else if time_diff_minutes ≤ 30 then 10
           else if time_diff_minutes ≤ 60 then 20
           else 40)) := by
  refine ⟨if source = "saudi_ncmc" then 100
    else if source = "metar" then 95
    else if source = "tomorrow_io" then 95
    else if source = "openweather" then 90
    else if source = "weatherapi" then 85
    else if source = "visualcrossing" then 85
    else if source = "interpolated" then 85
    else 50, ?_, rfl⟩
  split_ifs <;> simp

/-- C8: for every fixed wind and distance score, the composite score
with emission score 0 is at most one tenth of the composite score with
emission score 100 (all other inputs equal). -/
theorem emission_zero_near_elimination (wind distance : ℝ) :
    composite_score wind distance 0 ≤ (1 / 10) * composite_score wind distance 100 := by
  unfold composite_score
  norm_num
  linarith

/-- C9: for every violation-data dictionary and active language, the
rule-based analysis returns the text the body produced, or, when the
body raised, exactly the one-line analysis-error message of the active
language; it never propagates an exception. -/
theorem rule_based_analysis_total (violation_data : List (String × Val)) (is_ar : Bool) :
    (∃ s, rule_based_analysis violation_data is_ar = s) ∧
    (∀ e, rule_based_body violation_data is_ar = Except.error e →
      rule_based_analysis violation_data is_ar = analysis_error_message is_ar ∧
      '\n' ∉ (analysis_error_message is_ar).data) := by
  refine ⟨⟨_, rfl⟩, fun e he => ⟨?_, ?_⟩⟩
  · unfold rule_based_analysis
    rw [he]
  · cases is_ar <;> decide

/-- Witness for C9: a violation dictionary whose `nearby_factories`
field is a number makes the body raise a `TypeError`, and the analysis
degrades to the English one-line error message. -/
theorem rule_based_analysis_total_witness :
    rule_based_body [("nearby_factories", Val.num 5), ("gas", Val.str "NO2")] false =
      Except.error PyErr.typeError ∧
    rule_based_analysis [("nearby_factories", Val.num 5), ("gas", Val.str "NO2")] false =
      analysis_error_message false :=
  ⟨rfl,
    ((rule_based_analysis_total [("nearby_factories", Val.num 5), ("gas", Val.str "NO2")]
      false).2 PyErr.typeError rfl).1⟩

/-- C2: for every pair of accepted observations straddling the target
time with directions 350° and 10° and equal offsets on each side
(weight one half), the interpolated direction is 0° and the synthetic
confidence is exactly 85. -/
theorem interpolation_wraps_at_zero (b a : WindObs) (target_time : ℚ)
    (hb : b.observation_time ≤ target_time)
    (ha : target_time < a.observation_time)
    (hmid : a.observation_time - target_time = target_time - b.observation_time)
    (hdb : b.direction_deg = 350)
    (hda : a.direction_deg = 10) :
    ∃ r, interpolate_wind_data [b, a] target_time = some r ∧
      r.direction_deg = 0 ∧ r.confidence = 85 := by
  have hpos : 0 < target_time - b.observation_time := by linarith
  have h2 : a.observation_time - b.observation_time =
      (target_time - b.observation_time) * 2 := by linarith
  have hw : (target_time - b.observation_time) /
      (a.observation_time - b.observation_time) = 1 / 2 := by
    rw [h2, ← div_div, div_self (ne_of_gt hpos)]
  have hfilter₁ :
      [b, a].filter (fun r => decide (r.observation_time ≤ target_time)) = [b] := by
    simp [List.filter, hb, not_le.mpr ha]
  have hfilter₂ :
      [b, a].filter (fun r => decide (target_time < r.observation_time)) = [a] := by
    simp [List.filter, ha, not_lt.mpr hb]
  have habs : (180 : ℚ) < |a.direction_deg - b.direction_deg| := by
    rw [hda, hdb]; norm_num
  have hlt : ¬ b.direction_deg < a.direction_deg := by rw [hda, hdb]; norm_num
  unfold interpolate_wind_data
  rw [hfilter₁, hfilter₂]
  simp only [List.length_cons, List.length_nil, max_by_time, min_by_time, List.foldl_nil]
  norm_num
  rw [if_pos habs, if_neg hlt]
  have h360 : (b.direction_deg, a.direction_deg + 360).1 +
      ((b.direction_deg, a.direction_deg + 360).2 - (b.direction_deg, a.direction_deg + 360).1) *
        ((target_time - b.observation_time) / (a.observation_time - b.observation_time)) = 360 := by
    show b.direction_deg + (a.direction_deg + 360 - b.direction_deg) *
        ((target_time - b.observation_time) / (a.observation_time - b.observation_time)) = 360
    rw [hdb, hda, hw]; norm_num
  rw [h360]
  unfold pymod
  norm_num

/-- Witness for C2: observations at times 0 and 120 with directions
350° and 10°, target time 60, interpolate to direction 0° with
confidence 85. -/
theorem interpolation_wraps_at_zero_witness :
    ∃ r, interpolate_wind_data
        [{ direction_deg := 350, speed_ms := 2, observation_time := 0,
           direction_cardinal := "N", source := "metar",
           time_difference_minutes := 20, confidence := 90,
           confidence_reason := "r", warning := none },
         { direction_deg := 10, speed_ms := 4, observation_time := 120,
           direction_cardinal := "NNE", source := "openweather",
           time_difference_minutes := 20, confidence := 85,
           confidence_reason := "r", warning := none }] 60 = some r ∧
      r.direction_deg = 0 ∧ r.confidence = 85 :=
  interpolation_wraps_at_zero _ _ 60 (by norm_num) (by norm_num) (by norm_num) rfl rfl

set_option linter.unreachableTactic false

set_option linter.unusedTactic false

/-- C5: for every gas with a configured threshold and non-null value,
a value at or above the effective critical threshold (the configured
one, defaulting to twice the base) classifies as a critical violation,
a value in between as a moderate violation, and a value below the base
threshold as normal with zero percentage over. -/
theorem threshold_severity_classification (gas : String) (v t : ℚ)
    (tc : ThresholdConfig) (res : ThresholdResult)
    (htc : GAS_THRESHOLDS gas = some tc)
    (ht : tc.column_threshold = some t)
    (hres : check_threshold_violation gas (some v) = some res) :
    (tc.critical_threshold.getD (t * 2) ≤ v →
      res.severity = "critical" ∧ res.violated = true) ∧
    (t ≤ v → v < tc.critical_threshold.getD (t * 2) →
      res.severity = "moderate" ∧ res.violated = true) ∧
    (v < t →
      res.violated = false ∧ res.severity = "normal" ∧ res.percentage_over = some 0) := by
  unfold GAS_THRESHOLDS at htc
  split_ifs at htc with h1 h2 h3 h4 h5
  all_goals first
    | (injection htc with htc
       subst htc
       subst_vars
       simp only [ThresholdConfig.column_threshold, Option.some.injEq] at ht
       subst ht
       simp [check_threshold_violation, GAS_THRESHOLDS, GAS_PRODUCTS_unit] at hres
       split_ifs at hres with hc hm
       all_goals (subst hres; norm_num)
       all_goals constructor
       all_goals intros
       all_goals first
         | (exact (by assumption : False).elim)
         | (constructor <;> linarith)
         | linarith
         | norm_num
         | (exfalso; linarith))
    | exact absurd htc (by simp)

/-- Witness for C5: an NO2 reading of 0.0002 mol per square metre is at
the critical threshold 0.00015 or above and classifies critical. -/
theorem threshold_severity_classification_witness :
    ∃ res, check_threshold_violation "NO2" (some 0.0002) = some res ∧
      res.severity = "critical" ∧ res.violated = true := by
  refine ⟨_, rfl, ?_⟩
  have h := threshold_severity_classification "NO2" 0.0002 0.000075
    ⟨some 0.000075, some 0.00015, some 0.000225, some "mol/m²", some "µmol/m²",
      some "Sentinel-5P TROPOMI"⟩ _ rfl rfl rfl
  exact h.1 (by norm_num)

/-- C7: the wind-alignment score is monotonically non-increasing in the
wind-deviation angle over the domain 0 to 180 degrees, including across
the piece boundaries at 15, 30, 60 and 90 degrees. -/
theorem wind_score_monotone (a1 a2 : ℝ) (h0 : 0 ≤ a1) (h12 : a1 ≤ a2)
    (h180 : a2 ≤ 180) :
    wind_score a2 ≤ wind_score a1 := by
  unfold wind_score
  split_ifs <;>
    first
      | linarith
      | exact le_max_left _ _
      | exact max_le_max le_rfl (by linarith)
      | exact max_le (by linarith) (by linarith)

/-- Witness for C7: deviation angles 10 and 20 are in the domain and
the score at 20 is below the score at 10. -/
theorem wind_score_monotone_witness :
    (0 : ℝ) ≤ 10 ∧ (10 : ℝ) ≤ 20 ∧ (20 : ℝ) ≤ 180 ∧
      wind_score 20 ≤ wind_score 10 :=
  ⟨by norm_num, by norm_num, by norm_num,
    wind_score_monotone 10 20 (by norm_num) (by norm_num) (by norm_num)⟩


theorem pymodR_nonneg (x : ℝ) {n : ℝ} (hn : 0 < n) : 0 ≤ pymodR x n := by
  unfold pymodR
  have hfl : (⌊x / n⌋ : ℝ) ≤ x / n := Int.floor_le _
  have hx : n * (x / n) = x := by field_simp
  nlinarith [mul_le_mul_of_nonneg_left hfl hn.le]

theorem pymodR_lt (x : ℝ) {n : ℝ} (hn : 0 < n) : pymodR x n < n := by
  unfold pymodR
  have hfu : x / n < ⌊x / n⌋ + 1 := Int.lt_floor_add_one _
  have hx : n * (x / n) = x := by field_simp
  nlinarith [mul_lt_mul_of_pos_left hfu hn]

theorem wind_score_nonneg (a : ℝ) : 0 ≤ wind_score a := by
  unfold wind_score
  split_ifs <;> first | linarith | exact le_max_left _ _

theorem wind_score_le_100 (a : ℝ) (h : 0 ≤ a) : wind_score a ≤ 100 := by
  unfold wind_score
  split_ifs <;> first | linarith | exact max_le (by norm_num) (by linarith)

theorem composite_score_bounds (w d e : ℝ) (hw0 : 0 ≤ w) (hw1 : w ≤ 100)
    (hd0 : 0 ≤ d) (hd1 : d ≤ 100) (he : e = 0 ∨ e = 100) :
    0 ≤ composite_score w d e ∧ composite_score w d e ≤ 90 := by
  unfold composite_score
  rcases he with rfl | rfl <;> norm_num <;> constructor <;> nlinarith

theorem score_factory_confidence_bounds (hotspot : Hotspot) (wind : WindInput)
    (f : Factory) (hd : 0 ≤ f.distance_km) :
    0 ≤ (score_factory hotspot wind f).confidence ∧
      (score_factory hotspot wind f).confidence ≤ 90 := by
  have key : ∀ ws ds es mult : ℝ, 0 ≤ ws → ws ≤ 100 → 0 ≤ ds → ds ≤ 100 →
      (es = 0 ∨ es = 100) → 0 ≤ mult → mult ≤ 1 →
      0 ≤ max 0 (min 100 (composite_score ws ds es * mult)) ∧
      max 0 (min 100 (composite_score ws ds es * mult)) ≤ 90 := by
    intro ws ds es mult h1 h2 h3 h4 h5 h6 h7
    obtain ⟨hc0, hc90⟩ := composite_score_bounds ws ds es h1 h2 h3 h4 h5
    refine ⟨le_max_left _ _, max_le (by norm_num) (le_trans (min_le_right _ _) ?_)⟩
    nlinarith
  have hds0 : 0 ≤ 100 * Real.exp (-f.distance_km / 5) := by positivity
  have hds1 : 100 * Real.exp (-f.distance_km / 5) ≤ 100 := by
    have h1 : Real.exp (-f.distance_km / 5) ≤ 1 := by
      rw [← Real.exp_zero]
      exact Real.exp_le_exp.mpr (by linarith)
    linarith
  have hes : (if hotspot.gas ∈ f.emissions then (100 : ℝ) else 0) = 0 ∨
      (if hotspot.gas ∈ f.emissions then (100 : ℝ) else 0) = 100 := by
    split_ifs <;> simp
  obtain ⟨wdir, wsucc, wconf⟩ := wind
  cases wsucc <;> rcases wdir with _ | wd <;>
    (simp only [score_factory]
     refine key _ _ _ _ ?_ ?_ hds0 hds1 hes ?_ ?_ <;>
       first
         | exact wind_score_nonneg _
         | exact wind_score_le_100 _ (abs_nonneg _)
         | (split_ifs <;> norm_num)
         | norm_num)

theorem score_factory_score_distance (hotspot : Hotspot) (wind : WindInput) (f : Factory) :
    (score_factory hotspot wind f).score_distance = 100 * Real.exp (-f.distance_km / 5) := rfl

theorem apply_fallback_likely_upwind (s : ScoredFactory) :
    (apply_fallback s).likely_upwind = s.likely_upwind := by
  unfold apply_fallback
  split_ifs <;> rfl

theorem apply_fallback_confidence_bounds (s : ScoredFactory)
    (h0 : 0 ≤ s.score_distance) (h1 : s.score_distance ≤ 100) :
    0 ≤ (apply_fallback s).confidence ∧ (apply_fallback s).confidence ≤ 90 := by
  unfold apply_fallback
  split_ifs <;> constructor <;> simp only [] <;> nlinarith

/-- C10: on both the wind-based path and the fallback path, every
factory scored by the scorer ends with a confidence in the interval
0 to 90: the weights sum to 0.9, the quality multiplier is at most 1,
and the fallback multiplies a distance score bounded by 100 by at most
0.9. -/
theorem scored_confidence_in_range (hotspot : Hotspot) (wind : WindInput)
    (factories : List Factory)
    (hd : ∀ f ∈ factories, 0 ≤ f.distance_km) :
    ∀ g ∈ calculate_wind_vector_to_factories hotspot factories wind,
      0 ≤ g.confidence ∧ g.confidence ≤ 90 := by
  intro g hg
  simp only [calculate_wind_vector_to_factories] at hg
  rw [List.mem_mergeSort] at hg
  cases hany : (factories.map (score_factory hotspot wind)).any (fun f => f.likely_upwind) <;>
    rw [hany] at hg
  · simp only [if_neg Bool.false_ne_true] at hg
    obtain ⟨s, hs, rfl⟩ := List.mem_map.mp hg
    obtain ⟨f, hf, rfl⟩ := List.mem_map.mp hs
    refine apply_fallback_confidence_bounds _ ?_ ?_
    · rw [score_factory_score_distance]; positivity
    · rw [score_factory_score_distance]
      have h1 : Real.exp (-f.distance_km / 5) ≤ 1 := by
        rw [← Real.exp_zero]
        exact Real.exp_le_exp.mpr (by linarith [hd f hf])
      linarith
  · simp only [if_pos rfl] at hg
    obtain ⟨f, hf, rfl⟩ := List.mem_map.mp hg
    exact score_factory_confidence_bounds hotspot wind f (hd f hf)

theorem score_factory_emissions (hotspot : Hotspot) (wind : WindInput) (f : Factory) :
    (score_factory hotspot wind f).emissions = f.emissions := rfl

theorem score_factory_score_emission (hotspot : Hotspot) (wind : WindInput) (f : Factory) :
    (score_factory hotspot wind f).score_emission =
      if hotspot.gas ∈ f.emissions then 100 else 0 := rfl

theorem apply_fallback_emissions (s : ScoredFactory) :
    (apply_fallback s).emissions = s.emissions := by
  unfold apply_fallback
  split_ifs <;> rfl

theorem apply_fallback_score_distance (s : ScoredFactory) :
    (apply_fallback s).score_distance = s.score_distance := by
  unfold apply_fallback
  split_ifs <;> rfl

theorem calculate_wind_vector_sorted (hotspot : Hotspot) (wind : WindInput)
    (factories : List Factory) :
    (calculate_wind_vector_to_factories hotspot factories wind).Pairwise
      (fun a b => b.confidence ≤ a.confidence) := by
  unfold calculate_wind_vector_to_factories
  have h := @List.sorted_mergeSort ScoredFactory
    (fun a b => decide (b.confidence ≤ a.confidence))
    (fun a b c hab hbc =>
      decide_eq_true (le_trans (of_decide_eq_true hbc) (of_decide_eq_true hab)))
    (fun a b => by
      rcases le_total b.confidence a.confidence with h | h <;> simp [h])
    (if (factories.map (score_factory hotspot wind)).any (fun f => f.likely_upwind) then
        factories.map (score_factory hotspot wind)
      else (factories.map (score_factory hotspot wind)).map apply_fallback)
  exact h.imp (fun hab => of_decide_eq_true hab)

/-- C1: whenever no factory in the scored set is likely upwind, every
returned factory carries the fallback confidence: distance score times
0.9 for emitters of the detected gas (tagged `emission_match`),
distance score times 0.1 otherwise (tagged `no_emission_match`), and
the returned list is sorted descending by this confidence. -/
theorem fallback_reranking_applies (hotspot : Hotspot) (wind : WindInput)
    (factories : List Factory)
    (hnoup : ∀ g ∈ calculate_wind_vector_to_factories hotspot factories wind,
      g.likely_upwind = false) :
    (∀ g ∈ calculate_wind_vector_to_factories hotspot factories wind,
      (hotspot.gas ∈ g.emissions →
        g.confidence = g.score_distance * 0.9 ∧
        g.fallback_ranking = some "emission_match") ∧
      (hotspot.gas ∉ g.emissions →
        g.confidence = g.score_distance * 0.1 ∧
        g.fallback_ranking = some "no_emission_match")) ∧
    (calculate_wind_vector_to_factories hotspot factories wind).Pairwise
      (fun a b => b.confidence ≤ a.confidence) := by
  refine ⟨?_, calculate_wind_vector_sorted hotspot wind factories⟩
  have hany : (factories.map (score_factory hotspot wind)).any
      (fun f => f.likely_upwind) = false := by
    cases htrue : (factories.map (score_factory hotspot wind)).any
        (fun f => f.likely_upwind)
    · rfl
    · obtain ⟨s, hs, hsup⟩ := List.any_eq_true.mp htrue
      have hmem : s ∈ calculate_wind_vector_to_factories hotspot factories wind := by
        simp only [calculate_wind_vector_to_factories]
        rw [List.mem_mergeSort, htrue, if_pos rfl]
        exact hs
      rw [hnoup s hmem] at hsup
      exact absurd hsup Bool.false_ne_true
  intro g hg
  simp only [calculate_wind_vector_to_factories] at hg
  rw [List.mem_mergeSort, hany, if_neg Bool.false_ne_true] at hg
  obtain ⟨s, hs, rfl⟩ := List.mem_map.mp hg
  obtain ⟨f, hf, rfl⟩ := List.mem_map.mp hs
  have hgem : (apply_fallback (score_factory hotspot wind f)).emissions = f.emissions := by
    rw [apply_fallback_emissions, score_factory_emissions]
  constructor
  · intro hmem
    rw [hgem] at hmem
    have hpos : 0 < (score_factory hotspot wind f).score_emission := by
      rw [score_factory_score_emission, if_pos hmem]; norm_num
    rw [apply_fallback_score_distance]
    unfold apply_fallback
    rw [if_pos hpos]
    exact ⟨rfl, rfl⟩
  · intro hmem
    rw [hgem] at hmem
    have hzero : ¬ 0 < (score_factory hotspot wind f).score_emission := by
      rw [score_factory_score_emission, if_neg hmem]; norm_num
    rw [apply_fallback_score_distance]
    unfold apply_fallback
    rw [if_neg hzero]
    exact ⟨rfl, rfl⟩

/-- Witness for C1: with a failed wind resolution no factory is
upwind, and the single NO2-emitting factory receives the fallback
ranking. -/
theorem fallback_reranking_applies_witness :
    (∀ g ∈ calculate_wind_vector_to_factories ⟨27.5, 41.7, 1, "NO2"⟩
        [⟨"Hail Cement Company", 27.7, 42.0, ["NO2", "SO2", "CO"], 2⟩] ⟨none, false, none⟩,
      g.likely_upwind = false) ∧
    ((∀ g ∈ calculate_wind_vector_to_factories ⟨27.5, 41.7, 1, "NO2"⟩
        [⟨"Hail Cement Company", 27.7, 42.0, ["NO2", "SO2", "CO"], 2⟩] ⟨none, false, none⟩,
      ((⟨27.5, 41.7, 1, "NO2"⟩ : Hotspot).gas ∈ g.emissions →
        g.confidence = g.score_distance * 0.9 ∧
        g.fallback_ranking = some "emission_match") ∧
      ((⟨27.5, 41.7, 1, "NO2"⟩ : Hotspot).gas ∉ g.emissions →
        g.confidence = g.score_distance * 0.1 ∧
        g.fallback_ranking = some "no_emission_match")) ∧
     (calculate_wind_vector_to_factories ⟨27.5, 41.7, 1, "NO2"⟩
        [⟨"Hail Cement Company", 27.7, 42.0, ["NO2", "SO2", "CO"], 2⟩]
        ⟨none, false, none⟩).Pairwise (fun a b => b.confidence ≤ a.confidence)) := by
  have hupw : (score_factory (⟨27.5, 41.7, 1, "NO2"⟩ : Hotspot)
      (⟨none, false, none⟩ : WindInput)
      (⟨"Hail Cement Company", 27.7, 42.0, ["NO2", "SO2", "CO"], 2⟩ : Factory)).likely_upwind
      = false := rfl
  have hyp : ∀ g ∈ calculate_wind_vector_to_factories ⟨27.5, 41.7, 1, "NO2"⟩
      [⟨"Hail Cement Company", 27.7, 42.0, ["NO2", "SO2", "CO"], 2⟩] ⟨none, false, none⟩,
      g.likely_upwind = false := by
    intro g hg
    simp only [calculate_wind_vector_to_factories, List.map_cons, List.map_nil,
      List.any_cons, List.any_nil, hupw, Bool.or_false, if_neg Bool.false_ne_true,
      List.mergeSort_singleton, List.mem_singleton] at hg
    subst hg
    rw [apply_fallback_likely_upwind, hupw]
  exact ⟨hyp, fallback_reranking_applies _ _ _ hyp⟩

/-- Witness for C10: a single emitting factory at nonnegative distance
with a successful wind observation stays within the 0 to 90 confidence
range. -/
theorem scored_confidence_in_range_witness :
    (∀ f ∈ [(⟨"Hail Cement Company", 27.7, 42.0, ["NO2"], 2⟩ : Factory)],
      0 ≤ f.distance_km) ∧
    (∀ g ∈ calculate_wind_vector_to_factories ⟨27.5, 41.7, 1, "NO2"⟩
        [⟨"Hail Cement Company", 27.7, 42.0, ["NO2"], 2⟩] ⟨some 90, true, some 80⟩,
      0 ≤ g.confidence ∧ g.confidence ≤ 90) := by
  have hd : ∀ f ∈ [(⟨"Hail Cement Company", 27.7, 42.0, ["NO2"], 2⟩ : Factory)],
      0 ≤ f.distance_km := by
    intro f hf
    simp only [List.mem_singleton] at hf
    subst hf
    norm_num
  exact ⟨hd, scored_confidence_in_range _ _ _ hd⟩

theorem fetch_sources_loop_no_exit (target_time max_time_diff_minutes : ℚ)
    (pre rest : List Source)
    (hpre : ∀ p ∈ pre, ∀ v, p.response = some v →
      ¬(|v.observation_time - target_time| / 60 ≤ max_time_diff_minutes ∧
        |v.observation_time - target_time| / 60 ≤ 5)) :
    (fetch_sources_loop target_time max_time_diff_minutes (pre ++ rest)).1 =
      pre.map Source.name ++
        (fetch_sources_loop target_time max_time_diff_minutes rest).1 ∧
    (fetch_sources_loop target_time max_time_diff_minutes (pre ++ rest)).2.2 =
      (fetch_sources_loop target_time max_time_diff_minutes rest).2.2 := by
  induction pre with
  | nil => simp
  | cons p ps ih =>
    have hp := hpre p (by simp)
    have ihs := ih (fun q hq => hpre q (by simp [hq]))
    cases hresp : p.response with
    | none =>
      simp only [List.cons_append, fetch_sources_loop, hresp, List.map_cons]
      simp [ihs.1, ihs.2]
    | some v =>
      have hnotboth := hp v hresp
      simp only [List.cons_append, fetch_sources_loop, hresp]
      by_cases hacc : |v.observation_time - target_time| / 60 ≤ max_time_diff_minutes
      · have h5 : ¬ |v.observation_time - target_time| / 60 ≤ 5 := by
          intro h5
          exact hnotboth ⟨hacc, h5⟩
        rw [if_pos hacc, if_neg h5]
        simpa using ihs
      · rw [if_neg hacc]
        simpa using ihs

/-- C4: when a source in the priority order returns an accepted
observation whose raw time difference is at most 5 minutes, and no
earlier source did, `fetch_wind_data` returns that observation
immediately and never queries any lower-priority source. -/
theorem early_exit_skips_lower_priority (target_time max_time_diff_minutes : ℚ)
    (pre post : List Source) (s : Source) (w : RawWind)
    (hw : s.response = some w)
    (hacc : |w.observation_time - target_time| / 60 ≤ max_time_diff_minutes)
    (hbest : |w.observation_time - target_time| / 60 ≤ 5)
    (hpre : ∀ p ∈ pre, ∀ v, p.response = some v →
      ¬(|v.observation_time - target_time| / 60 ≤ max_time_diff_minutes ∧
        |v.observation_time - target_time| / 60 ≤ 5)) :
    fetch_wind_from target_time max_time_diff_minutes (pre ++ s :: post) =
      mk_accepted target_time s.name w ∧
    queried_sources target_time max_time_diff_minutes (pre ++ s :: post) =
      pre.map Source.name ++ [s.name] := by
  have hs : fetch_sources_loop target_time max_time_diff_minutes (s :: post) =
      ([s.name], [mk_accepted target_time s.name w], some (mk_accepted target_time s.name w)) := by
    simp only [fetch_sources_loop, hw]
    rw [if_pos hacc, if_pos hbest]
  obtain ⟨hq, he⟩ := fetch_sources_loop_no_exit target_time max_time_diff_minutes pre
    (s :: post) hpre
  rw [hs] at hq he
  constructor
  · simp only [fetch_wind_from]
    rw [he]
  · simp only [queried_sources]
    rw [hq]

/-- Witness for C4: with the first source failing and the second
matching within one minute, the fetch returns the second source's
observation and the third source is never queried. -/
theorem early_exit_skips_lower_priority_witness :
    fetch_wind_from 0 30
        [⟨"openweather", none⟩,
         ⟨"tomorrow_io", some ⟨90, 3, 60, "E"⟩⟩,
         ⟨"metar", some ⟨180, 5, 0, "S"⟩⟩] =
      mk_accepted 0 "tomorrow_io" ⟨90, 3, 60, "E"⟩ ∧
    queried_sources 0 30
        [⟨"openweather", none⟩,
         ⟨"tomorrow_io", some ⟨90, 3, 60, "E"⟩⟩,
         ⟨"metar", some ⟨180, 5, 0, "S"⟩⟩] = ["openweather", "tomorrow_io"] := by
  have h := early_exit_skips_lower_priority 0 30 [⟨"openweather", none⟩]
    [⟨"metar", some ⟨180, 5, 0, "S"⟩⟩] ⟨"tomorrow_io", some ⟨90, 3, 60, "E"⟩⟩
    ⟨90, 3, 60, "E"⟩ rfl (by norm_num) (by norm_num)
    (by
      intro p hp v hv
      simp only [List.mem_singleton] at hp
      subst hp
      exact Option.noConfusion hv)
  exact h

theorem pairwise_of_mem {α : Type} {R : α → α → Prop} (l : List α)
    (h : ∀ a ∈ l, ∀ b ∈ l, R a b) : l.Pairwise R := by
  induction l with
  | nil => exact List.Pairwise.nil
  | cons x xs ih =>
    exact List.Pairwise.cons
      (fun y hy => h x (by simp) y (by simp [hy]))
      (ih (fun a ha b hb => h a (by simp [ha]) b (by simp [hb])))

theorem store101_exists_none :
    violation_exists store101 "Hail" "NO2" "SAT-DUP" = none := by
  have hfc : store101.filter (fun r => decide (r.city = "Hail")) = store101 := by
    rw [List.filter_eq_self]
    intro r hr
    obtain ⟨i, hi, rfl⟩ := List.mem_map.mp hr
    simp [mkStoreRecord]
  have hfg : store101.filter (fun r => decide (r.gas = "NO2")) = store101 := by
    rw [List.filter_eq_self]
    intro r hr
    obtain ⟨i, hi, rfl⟩ := List.mem_map.mp hr
    simp [mkStoreRecord]
  have hsorted : store101.mergeSort
      (fun a b => decide (b.timestamp ≤ a.timestamp)) = store101 := by
    apply List.mergeSort_of_sorted
    apply pairwise_of_mem
    intro a ha b hb
    obtain ⟨i, hi, rfl⟩ := List.mem_map.mp ha
    obtain ⟨j, hj, rfl⟩ := List.mem_map.mp hb
    simp [mkStoreRecord]
  have htake : store101.take 100 = (List.range 100).map mkStoreRecord := by
    unfold store101
    rw [← List.map_take, List.take_range]
    norm_num
  have hfind : ((List.range 100).map mkStoreRecord).find?
      (fun v => decide (v.satellite_timestamp = "SAT-DUP")) = none := by
    rw [List.find?_eq_none]
    intro x hx
    obtain ⟨i, hi, rfl⟩ := List.mem_map.mp hx
    rw [List.mem_range] at hi
    simp [mkStoreRecord, Nat.ne_of_lt hi]
  unfold violation_exists
  simp only [get_all_violations]
  rw [if_pos (by decide : ("Hail" : String) ≠ "")]
  rw [hfc]
  rw [if_pos (by decide : ("NO2" : String) ≠ "")]
  rw [hfg, hsorted]
  rw [if_pos (by decide : (100 : ℕ) ≠ 0)]
  rw [htake, hfind]
  rfl

/-- Counterexample for C6: the duplicate check of `save_violation`
fetches at most the 100 newest records for the city and gas, so with
101 stored records whose only triple match is cut off by the limit, a
save with an already-stored (city, gas, satellite timestamp) triple
writes a new record and returns a fresh id instead of the existing one. -/
theorem dedup_check_misses_old_record :
    (mkStoreRecord 100 ∈ store101 ∧
      (mkStoreRecord 100).city = vd_dup.city ∧
      (mkStoreRecord 100).gas = vd_dup.gas ∧
      (mkStoreRecord 100).satellite_timestamp = vd_dup.timestamp_ksa) ∧
    (save_violation store101 true vd_dup "analysis" "20260101_120000" "TI" "TK").1 =
      some "20260101_120000_Hail_NO2" ∧
    some "20260101_120000_Hail_NO2" ≠ some (mkStoreRecord 100).id ∧
    (save_violation store101 true vd_dup "analysis" "20260101_120000" "TI" "TK").2.length =
      store101.length + 1 := by
  have hsave : save_violation store101 true vd_dup "analysis" "20260101_120000" "TI" "TK" =
      (some ("20260101_120000" ++ "_" ++ vd_dup.city ++ "_" ++ vd_dup.gas),
       store101 ++ [{ id := "20260101_120000" ++ "_" ++ vd_dup.city ++ "_" ++ vd_dup.gas
                      timestamp := "TI"
                      timestamp_ksa := "TK"
                      satellite_timestamp := vd_dup.timestamp_ksa
                      city := vd_dup.city
                      gas := vd_dup.gas
                      gas_name := vd_dup.gas_name
                      max_value := vd_dup.max_value
                      threshold := vd_dup.threshold
                      unit := vd_dup.unit
                      severity := vd_dup.severity
                      percentage_over := vd_dup.percentage_over
                      ai_analysis := "analysis" }]) := by
    unfold save_violation
    rw [show vd_dup.city = "Hail" from rfl, show vd_dup.gas = "NO2" from rfl,
      show vd_dup.timestamp_ksa = "SAT-DUP" from rfl, store101_exists_none]
    simp
  refine ⟨⟨?_, rfl, rfl, rfl⟩, ?_, ?_, ?_⟩
  · exact List.mem_map.mpr ⟨100, by simp, rfl⟩
  · rw [hsave]
    rfl
  · decide
  · rw [hsave]
    simp

/-- C6 (amended): whenever the duplicate check finds the matching
record — that is, the first record with the violation's satellite
timestamp among the 100 newest stored records for its city and gas —
`save_violation` returns that record's id and leaves the store
unchanged. -/
theorem save_on_found_duplicate_returns_existing (store : List VRecord)
    (vd : ViolationInput) (analysis now_id now_iso now_ksa : String) (r : VRecord)
    (hfind : (get_all_violations store vd.city vd.gas (some 100)).find?
        (fun v => decide (v.satellite_timestamp = vd.timestamp_ksa)) = some r) :
    save_violation store true vd analysis now_id now_iso now_ksa = (some r.id, store) := by
  unfold save_violation violation_exists
  rw [hfind]
  simp

/-- Witness for the amended C6: a one-record store with a matching
triple makes `save_violation` return the stored id and write nothing. -/
theorem save_on_found_duplicate_returns_existing_witness :
    save_violation
        [{ id := "ID0", timestamp := "2024", timestamp_ksa := "K",
           satellite_timestamp := "SAT", city := "Hail", gas := "NO2",
           gas_name := "g", max_value := 1, threshold := 1, unit := "u",
           severity := "moderate", percentage_over := 0, ai_analysis := "a" }]
        true
        { city := "Hail", gas := "NO2", timestamp_ksa := "SAT", gas_name := "g",
          max_value := 1, threshold := 1, unit := "u", severity := "moderate",
          percentage_over := 0 }
        "x" "NEW" "I" "K2" =
      (some "ID0",
        [{ id := "ID0", timestamp := "2024", timestamp_ksa := "K",
           satellite_timestamp := "SAT", city := "Hail", gas := "NO2",
           gas_name := "g", max_value := 1, threshold := 1, unit := "u",
           severity := "moderate", percentage_over := 0, ai_analysis := "a" }]) := by
  exact save_on_found_duplicate_returns_existing _ _ _ _ _ _
    { id := "ID0", timestamp := "2024", timestamp_ksa := "K",
      satellite_timestamp := "SAT", city := "Hail", gas := "NO2",
      gas_name := "g", max_value := 1, threshold := 1, unit := "u",
      severity := "moderate", percentage_over := 0, ai_analysis := "a" }
    (by simp [get_all_violations, List.filter, List.mergeSort_singleton, List.find?])

end HailAQ
